import Mathlib

/-!
Verification of the topology-resolver and bootstrap-provisioner logic of a
MySQL Router snapshot.  The group-replication membership resolver is embedded
from src/metadata_cache/src/group_replication_metadata.cc; the bootstrap
option validation, overwrite and cleanup behaviour of the ConfigGenerator
(whose implementation file is not part of this snapshot) is modelled from the
specification and pinned by the expectations of
src/router/tests/test_config_generator.cc.
-/

namespace GRMeta

/-- Member state enum of GroupReplicationMember (group_replication_metadata.h);
states other than the four recognized ones collapse to Other. -/
inductive MemberState
  | Online
  | Offline
  | Unreachable
  | Recovering
  | Other
deriving DecidableEq, Repr

/-- Member role enum of GroupReplicationMember. -/
inductive MemberRole
  | Primary
  | Secondary
deriving DecidableEq, Repr

/-- One entry of the map returned by fetch_group_replication_members. -/
structure GroupReplicationMember where
  member_id : String
  host : String
  port : Nat
  state : MemberState
  role : MemberRole
deriving DecidableEq, Repr

/-- A result-set row: a list of nullable text fields, as the MySQLSession
row callback sees it (a null column is none). -/
abbrev Row := List (Option String)

/-- The two result sets the resolver consumes: the rows answering
"show status like group_replication_primary_member" and the rows answering
the SELECT on performance_schema.replication_group_members. -/
structure MySQLSession where
  statusResult : List Row
  membersResult : List Row
deriving Repr

/-- The queries fetch_group_replication_members can issue, in the source's
textual order. -/
inductive QueryId
  | primaryStatus
  | groupMembers
deriving DecidableEq, Repr

/-- Observable effects of one resolver pass: queries issued and log lines
emitted (log_warning on a null field, log_info on an unknown state). -/
inductive Event
  | query (q : QueryId)
  | logUnknownState (state member : String)
  | logNullFieldRow (row : Row)
deriving DecidableEq, Repr

/-- Digit run to a natural number, most significant first (the digit loop
inside C atoi). -/
def digitsToNat (cs : List Char) : Nat :=
  cs.foldl (fun a c => a * 10 + (c.toNat - 48)) 0

/-- C atoi: skip leading whitespace, optional sign, then the longest run of
decimal digits; no digits gives 0. -/
def atoi (s : String) : Int :=
  let cs := s.data.dropWhile Char.isWhitespace
  match cs with
  | '-' :: rest => - Int.ofNat (digitsToNat (rest.takeWhile Char.isDigit))
  | '+' :: rest => Int.ofNat (digitsToNat (rest.takeWhile Char.isDigit))
  | _ => Int.ofNat (digitsToNat (cs.takeWhile Char.isDigit))

/-- static_cast to uint16_t: the integer modulo 2^16. -/
def toUInt16 (i : Int) : Nat :=
  (i % 65536).toNat

/-- Embeds find_group_replication_primary_member: run the status query, take
the first row (the row callback returns false after one row), demand exactly
2 fields, and read column 1 with a null column read as the empty string.  An
empty result set leaves the primary id empty. -/
def find_group_replication_primary_member (connection : MySQLSession) :
    Except String String :=
  match connection.statusResult with
  | [] => Except.ok ""
  | row :: _ =>
    if row.length ≠ 2 then
      Except.error ("Unexpected number of fields in the status response. Expected = 2, got = "
        ++ toString row.length)
    else
      Except.ok ((row.getD 1 none).getD "")

/-- Column 4 of a membership row read as the single-primary flag:
row[4] && (strcmp(row[4], "1") == 0 || strcmp(row[4], "ON") == 0). -/
def rowSingleMaster (field : Option String) : Bool :=
  match field with
  | none => false
  | some s => s == "1" || s == "ON"

/-- The member_state string mapped to the state enum, by exact (case
sensitive) comparison; anything unrecognized is Other. -/
def stateOfString (state : String) : MemberState :=
  if state = "ONLINE" then MemberState.Online
  else if state = "OFFLINE" then MemberState.Offline
  else if state = "UNREACHABLE" then MemberState.Unreachable
  else if state = "RECOVERING" then MemberState.Recovering
  else MemberState.Other

/-- Body of the membership row callback, short of the map insertion: demand 5
fields, read the single-primary flag from column 4, reject a null in columns
0..3 (after a log_warning), decode state and port, and assign the role:
Primary when the primary id matches or the row's flag is off, else
Secondary. -/
def rowToMember (primary_member : String) (row : Row) :
    List Event × Except String (GroupReplicationMember × Bool) :=
  if row.length ≠ 5 then
    ([], Except.error ("Unexpected number of fields in resultset from group_replication query. Expected = 5, got = "
      ++ toString row.length))
  else
    let single_master := rowSingleMaster (row.getD 4 none)
    match row.getD 0 none, row.getD 1 none, row.getD 2 none, row.getD 3 none with
    | some member_id, some member_host, some member_port, some member_state =>
      let state := stateOfString member_state
      let logs :=
        if state = MemberState.Other then [Event.logUnknownState member_state member_id]
        else []
      let role :=
        if primary_member = member_id ∨ single_master = false then MemberRole.Primary
        else MemberRole.Secondary
      (logs,
       Except.ok
         (⟨member_id, member_host, toUInt16 (atoi member_port), state, role⟩,
          single_master))
    | _, _, _, _ =>
      ([Event.logNullFieldRow row],
       Except.error "Unexpected value in group_replication_metadata query results")

/-- std::map assignment members[key] = value: replace the entry with this key
or append a fresh one. -/
def mapAssign (m : List (String × GroupReplicationMember)) (key : String)
    (value : GroupReplicationMember) : List (String × GroupReplicationMember) :=
  match m with
  | [] => [(key, value)]
  | (k, v) :: rest =>
    if k = key then (key, value) :: rest else (k, v) :: mapAssign rest key value

/-- The membership query's row loop: each row is decoded by rowToMember and
inserted under its member id; the by-reference single_master is overwritten
by every row, so the last processed row's flag survives.  The first failing
row aborts the whole fetch. -/
def processMemberRows (primary_member : String) (rows : List Row)
    (acc : List (String × GroupReplicationMember) × Bool) :
    List Event × Except String (List (String × GroupReplicationMember) × Bool) :=
  match rows with
  | [] => ([], Except.ok acc)
  | row :: rest =>
    match rowToMember primary_member row with
    | (logs, Except.error e) => (logs, Except.error e)
    | (logs, Except.ok (member, single_master)) =>
      let next := processMemberRows primary_member rest
        (mapAssign acc.1 member.member_id member, single_master)
      (logs ++ next.1, next.2)

/-- Events and outcome of one fetch_group_replication_members call. -/
structure FetchOutcome where
  events : List Event
  result : Except String (List (String × GroupReplicationMember) × Bool)
deriving Repr

/-- Embeds fetch_group_replication_members: resolve the primary id first (its
query is issued unconditionally and a failure there abandons the pass), then
issue the membership query and fold the rows.  sm0 is the caller's initial
value of the by-reference single_master argument. -/
def fetch_group_replication_members (connection : MySQLSession) (sm0 : Bool) :
    FetchOutcome :=
  match find_group_replication_primary_member connection with
  | Except.error e => ⟨[Event.query QueryId.primaryStatus], Except.error e⟩
  | Except.ok primary_member =>
    let folded := processMemberRows primary_member connection.membersResult ([], sm0)
    ⟨Event.query QueryId.primaryStatus :: Event.query QueryId.groupMembers :: folded.1,
     folded.2⟩

theorem mapAssign_mem {m : List (String × GroupReplicationMember)} {key : String}
    {value : GroupReplicationMember} {q : String × GroupReplicationMember}
    (h : q ∈ mapAssign m key value) : q = (key, value) ∨ q ∈ m := by
  induction m with
  | nil => simpa [mapAssign] using h
  | cons head tail ih =>
    obtain ⟨k, v⟩ := head
    by_cases hk : k = key
    · rw [mapAssign, if_pos hk] at h
      rcases List.mem_cons.mp h with h | h
      · exact Or.inl h
      · exact Or.inr (List.mem_cons_of_mem _ h)
    · rw [mapAssign, if_neg hk] at h
      rcases List.mem_cons.mp h with h | h
      · exact Or.inr (h ▸ List.mem_cons_self _ _)
      · rcases ih h with h | h
        · exact Or.inl h
        · exact Or.inr (List.mem_cons_of_mem _ h)

theorem rowToMember_ok {p : String} {row : Row} {lg : List Event}
    {m : GroupReplicationMember} {sm : Bool}
    (h : rowToMember p row = (lg, Except.ok (m, sm))) :
    sm = rowSingleMaster (row.getD 4 none) ∧
    m.role = (if p = m.member_id ∨ sm = false then MemberRole.Primary
              else MemberRole.Secondary) := by
  unfold rowToMember at h
  split at h
  · simp at h
  · split at h
    · simp only [Prod.mk.injEq, Except.ok.injEq] at h
      obtain ⟨-, hm, hsm⟩ := h
      subst hm hsm
      exact ⟨rfl, rfl⟩
    · simp at h

theorem processMemberRows_pres (P : String × GroupReplicationMember → Prop)
    (p : String) (rows : List Row) :
    ∀ (acc : List (String × GroupReplicationMember) × Bool)
      (_ : ∀ row ∈ rows, ∀ lg m sm,
        rowToMember p row = (lg, Except.ok (m, sm)) → P (m.member_id, m))
      (_ : ∀ q ∈ acc.1, P q)
      {lgs : List Event} {out : List (String × GroupReplicationMember)} {sm : Bool}
      (_ : processMemberRows p rows acc = (lgs, Except.ok (out, sm)))
      (q : String × GroupReplicationMember), q ∈ out → P q := by
  induction rows with
  | nil =>
    intro acc hrows hacc lgs out sm h q hq
    rw [processMemberRows] at h
    simp only [Prod.mk.injEq, Except.ok.injEq] at h
    obtain ⟨-, h2⟩ := h
    subst h2
    exact hacc q hq
  | cons row rest ih =>
    intro acc hrows hacc lgs out sm h q hq
    rw [processMemberRows] at h
    rcases hrm : rowToMember p row with ⟨lg, res⟩
    rw [hrm] at h
    cases res with
    | error e => simp at h
    | ok pair =>
      obtain ⟨member, sm1⟩ := pair
      rcases hrec : processMemberRows p rest (mapAssign acc.1 member.member_id member, sm1)
        with ⟨lgs2, res2⟩
      simp only [hrec] at h
      obtain ⟨-, hres2⟩ := Prod.mk.injEq .. ▸ h
      refine ih (mapAssign acc.1 member.member_id member, sm1)
        (fun r hr => hrows r (List.mem_cons_of_mem _ hr))
        ?_ (hres2 ▸ hrec) q hq
      intro q2 hq2
      rcases mapAssign_mem hq2 with h2 | h2
      · exact h2 ▸ hrows row (List.mem_cons_self _ _) lg member sm1 hrm
      · exact hacc q2 h2

theorem fetch_result_eq {s : MySQLSession} {sm0 : Bool} {p : String}
    (hp : find_group_replication_primary_member s = Except.ok p) :
    (fetch_group_replication_members s sm0).result =
      (processMemberRows p s.membersResult ([], sm0)).2 := by
  unfold fetch_group_replication_members
  rw [hp]

/-- C1: in a membership result set whose single-primary flag column is true
on every row, a member's role is Primary exactly when its id equals the
primary id resolved by the preceding status query and Secondary otherwise;
when the flag column is false on every row, every member is Primary and none
is Secondary. -/
theorem fetch_role_assignment (s : MySQLSession) (sm0 : Bool) (primary : String)
    (members : List (String × GroupReplicationMember)) (sm : Bool)
    (hp : find_group_replication_primary_member s = Except.ok primary)
    (hf : (fetch_group_replication_members s sm0).result = Except.ok (members, sm)) :
    ((∀ row ∈ s.membersResult, rowSingleMaster (row.getD 4 none) = true) →
      ∀ q ∈ members,
        (q.2.role = MemberRole.Primary ↔ q.2.member_id = primary) ∧
        (q.2.role = MemberRole.Secondary ↔ q.2.member_id ≠ primary)) ∧
    ((∀ row ∈ s.membersResult, rowSingleMaster (row.getD 4 none) = false) →
      ∀ q ∈ members, q.2.role = MemberRole.Primary ∧ q.2.role ≠ MemberRole.Secondary) := by
  rw [fetch_result_eq hp] at hf
  rcases hfold : processMemberRows primary s.membersResult ([], sm0) with ⟨lgs, res⟩
  rw [hfold] at hf
  have hrun : processMemberRows primary s.membersResult ([], sm0) =
      (lgs, Except.ok (members, sm)) := by
    rw [hfold]
    exact congrArg (Prod.mk lgs) hf
  constructor
  · intro hall q hq
    refine processMemberRows_pres
      (fun q => (q.2.role = MemberRole.Primary ↔ q.2.member_id = primary) ∧
        (q.2.role = MemberRole.Secondary ↔ q.2.member_id ≠ primary))
      primary s.membersResult ([], sm0) ?_ (by simp) hrun q hq
    intro row hr lg m msm heq
    obtain ⟨hsm, hrole⟩ := rowToMember_ok heq
    rw [hall row hr] at hsm
    subst hsm
    by_cases hid : primary = m.member_id
    · simp [hrole, hid]
    · have hmid : m.member_id ≠ primary := fun h => hid h.symm
      rw [hrole, if_neg (by simp [hid])]
      simp [hmid]
  · intro hall q hq
    refine processMemberRows_pres
      (fun q => q.2.role = MemberRole.Primary ∧ q.2.role ≠ MemberRole.Secondary)
      primary s.membersResult ([], sm0) ?_ (by simp) hrun q hq
    intro row hr lg m msm heq
    obtain ⟨hsm, hrole⟩ := rowToMember_ok heq
    rw [hall row hr] at hsm
    subst hsm
    simp [hrole]

/-- Two-member single-primary session used to instantiate the role-assignment
theorem on concrete data. -/
def sessionC1 : MySQLSession :=
  ⟨[[some "Variable_name", some "prim"]],
   [[some "prim", some "hostA", some "3306", some "ONLINE", some "1"],
    [some "m2", some "hostB", some "3307", some "ONLINE", some "1"]]⟩

/-- Member map fetch_group_replication_members returns for sessionC1. -/
def membersC1 : List (String × GroupReplicationMember) :=
  [("prim", ⟨"prim", "hostA", 3306, MemberState.Online, MemberRole.Primary⟩),
   ("m2", ⟨"m2", "hostB", 3307, MemberState.Online, MemberRole.Secondary⟩)]

/-- Witness: the role-assignment theorem applied to sessionC1, where the
non-primary member m2 comes out Secondary. -/
theorem fetch_role_assignment_witness :
    (GroupReplicationMember.mk "m2" "hostB" 3307 MemberState.Online
      MemberRole.Secondary).role = MemberRole.Secondary ↔ "m2" ≠ "prim" := by
  have h := fetch_role_assignment sessionC1 false "prim" membersC1 true rfl rfl
  exact (h.1 (by decide)
    ("m2", ⟨"m2", "hostB", 3307, MemberState.Online, MemberRole.Secondary⟩) (by decide)).2

theorem processMemberRows_err (p : String) {rows : List Row} {row : Row}
    (hr : row ∈ rows) {e0 : String} {lg0 : List Event}
    (hbad : rowToMember p row = (lg0, Except.error e0)) :
    ∀ acc, ∃ lgs e, processMemberRows p rows acc = (lgs, Except.error e) := by
  induction rows with
  | nil => cases hr
  | cons head rest ih =>
    intro acc
    rcases hhm : rowToMember p head with ⟨lg, res⟩
    cases res with
    | error e =>
      refine ⟨lg, e, ?_⟩
      rw [processMemberRows, hhm]
    | ok pair =>
      obtain ⟨member, sm1⟩ := pair
      rcases List.mem_cons.mp hr with hcase | hcase
      · rw [hcase] at hbad
        rw [hbad] at hhm
        simp at hhm
      · obtain ⟨lgs, e, hrec⟩ := ih hcase (mapAssign acc.1 member.member_id member, sm1)
        refine ⟨lg ++ lgs, e, ?_⟩
        rw [processMemberRows, hhm]
        show (lg ++ (processMemberRows p rest (mapAssign acc.1 member.member_id member, sm1)).1,
          (processMemberRows p rest (mapAssign acc.1 member.member_id member, sm1)).2) = _
        rw [hrec]

/-- C2: a membership row whose id, host, port or state column is null makes
the row callback log the row and fail with the metadata format error, and the
whole fetch returns an error instead of a member map: such a row is never
silently skipped. -/
theorem fetch_null_field_error (s : MySQLSession) (sm0 : Bool) (row : Row)
    (hrow : row ∈ s.membersResult) (hlen : row.length = 5)
    (hnull : row.getD 0 none = none ∨ row.getD 1 none = none ∨
             row.getD 2 none = none ∨ row.getD 3 none = none) :
    (∀ p, rowToMember p row =
      ([Event.logNullFieldRow row],
       Except.error "Unexpected value in group_replication_metadata query results")) ∧
    ∃ e, (fetch_group_replication_members s sm0).result = Except.error e := by
  have hbad : ∀ p, rowToMember p row =
      ([Event.logNullFieldRow row],
       Except.error "Unexpected value in group_replication_metadata query results") := by
    intro p
    rcases h0 : row.getD 0 none with _ | v0 <;>
      rcases h1 : row.getD 1 none with _ | v1 <;>
        rcases h2 : row.getD 2 none with _ | v2 <;>
          rcases h3 : row.getD 3 none with _ | v3 <;>
            simp_all [rowToMember]
  refine ⟨hbad, ?_⟩
  rcases hp : find_group_replication_primary_member s with e | primary
  · exact ⟨e, by unfold fetch_group_replication_members; rw [hp]⟩
  · obtain ⟨lgs, e, hrun⟩ := processMemberRows_err primary hrow (hbad primary) ([], sm0)
    exact ⟨e, by rw [fetch_result_eq hp, hrun]⟩

/-- Session whose second membership row has a null member_host column. -/
def sessionC2 : MySQLSession :=
  ⟨[[some "Variable_name", some "prim"]],
   [[some "prim", some "hostA", some "3306", some "ONLINE", some "1"],
    [some "m2", none, some "3307", some "ONLINE", some "1"]]⟩

/-- Witness: the null-field theorem applied to sessionC2's second row. -/
theorem fetch_null_field_error_witness :
    (∀ p, rowToMember p [some "m2", none, some "3307", some "ONLINE", some "1"] =
      ([Event.logNullFieldRow [some "m2", none, some "3307", some "ONLINE", some "1"]],
       Except.error "Unexpected value in group_replication_metadata query results")) ∧
    ∃ e, (fetch_group_replication_members sessionC2 false).result = Except.error e :=
  fetch_null_field_error sessionC2 false
    [some "m2", none, some "3307", some "ONLINE", some "1"]
    (by decide) (by decide) (by decide)

/-- C3: a membership row with all four data columns present is always
accepted: the four recognized state strings map to their enum values, any
other string (case sensitively compared) maps to Other with an info log for
the unknown state, and the row still produces a member instead of an
error. -/
theorem state_string_mapping (primary : String) (row : Row)
    (id host port st : String) (hlen : row.length = 5)
    (h0 : row.getD 0 none = some id) (h1 : row.getD 1 none = some host)
    (h2 : row.getD 2 none = some port) (h3 : row.getD 3 none = some st) :
    (stateOfString "ONLINE" = MemberState.Online ∧
     stateOfString "OFFLINE" = MemberState.Offline ∧
     stateOfString "UNREACHABLE" = MemberState.Unreachable ∧
     stateOfString "RECOVERING" = MemberState.Recovering) ∧
    rowToMember primary row =
      ((if stateOfString st = MemberState.Other
        then [Event.logUnknownState st id] else []),
       Except.ok
         (⟨id, host, toUInt16 (atoi port), stateOfString st,
           if primary = id ∨ rowSingleMaster (row.getD 4 none) = false
           then MemberRole.Primary else MemberRole.Secondary⟩,
          rowSingleMaster (row.getD 4 none))) ∧
    (st ≠ "ONLINE" → st ≠ "OFFLINE" → st ≠ "UNREACHABLE" → st ≠ "RECOVERING" →
      stateOfString st = MemberState.Other) := by
  refine ⟨by decide, ?_, ?_⟩
  · unfold rowToMember
    rw [if_neg (show ¬ (row.length ≠ 5) by simp [hlen]), h0, h1, h2, h3]
  · intro n1 n2 n3 n4
    simp [stateOfString, n1, n2, n3, n4]

/-- Witness: a row whose state column is the lower-case string online is
accepted with state Other, the unknown state logged, and the member kept. -/
theorem state_string_mapping_witness :
    rowToMember "p" [some "m1", some "h", some "3306", some "online", some "1"] =
      ([Event.logUnknownState "online" "m1"],
       Except.ok (⟨"m1", "h", 3306, MemberState.Other, MemberRole.Secondary⟩, true)) := by
  have h := state_string_mapping "p"
    [some "m1", some "h", some "3306", some "online", some "1"]
    "m1" "h" "3306" "online" (by decide) rfl rfl rfl rfl
  simpa using h.2.1

/-- True exactly on the query events of a fetch trace. -/
def isQueryEvent : Event → Bool
  | Event.query _ => true
  | _ => false

theorem rowToMember_no_query (p : String) (row : Row) :
    ((rowToMember p row).1).filter isQueryEvent = [] := by
  unfold rowToMember
  split
  · rfl
  · split
    · dsimp only
      split <;> rfl
    · rfl

theorem processMemberRows_no_query (p : String) (rows : List Row) :
    ∀ acc, ((processMemberRows p rows acc).1).filter isQueryEvent = [] := by
  induction rows with
  | nil => intro acc; rfl
  | cons row rest ih =>
    intro acc
    have hlg := rowToMember_no_query p row
    rw [processMemberRows]
    rcases hrm : rowToMember p row with ⟨lg, res⟩
    rw [hrm] at hlg
    cases res with
    | error e => exact hlg
    | ok pair =>
      obtain ⟨member, sm1⟩ := pair
      dsimp only
      rw [List.filter_append, hlg, ih]
      rfl

/-- C4: every fetch issues the primary-member status query first; the
membership query is issued only after it and never before (the filtered query
trace is the status query alone, or the status query followed by the
membership query), and the member map is computed from exactly the primary id
that status query returned. -/
theorem fetch_query_order (s : MySQLSession) (sm0 : Bool) :
    ((fetch_group_replication_members s sm0).events.head? =
      some (Event.query QueryId.primaryStatus)) ∧
    (((fetch_group_replication_members s sm0).events.filter isQueryEvent =
        [Event.query QueryId.primaryStatus]) ∨
     ((fetch_group_replication_members s sm0).events.filter isQueryEvent =
        [Event.query QueryId.primaryStatus, Event.query QueryId.groupMembers])) ∧
    (∀ p, find_group_replication_primary_member s = Except.ok p →
      (fetch_group_replication_members s sm0).result =
        (processMemberRows p s.membersResult ([], sm0)).2) := by
  rcases hp : find_group_replication_primary_member s with e | p₀
  · have hev : (fetch_group_replication_members s sm0).events =
        [Event.query QueryId.primaryStatus] := by
      unfold fetch_group_replication_members
      rw [hp]
    refine ⟨by rw [hev]; rfl, Or.inl (by rw [hev]; rfl), ?_⟩
    intro p hp2
    exact Except.noConfusion hp2
  · have hev : (fetch_group_replication_members s sm0).events =
        Event.query QueryId.primaryStatus :: Event.query QueryId.groupMembers ::
          (processMemberRows p₀ s.membersResult ([], sm0)).1 := by
      unfold fetch_group_replication_members
      rw [hp]
    refine ⟨by rw [hev]; rfl, Or.inr ?_, ?_⟩
    · rw [hev]
      simp [List.filter_cons, processMemberRows_no_query p₀ s.membersResult ([], sm0),
        isQueryEvent]
    · intro p hp2
      have hpp : p₀ = p := Except.ok.inj hp2
      subst hpp
      exact fetch_result_eq hp

theorem processMemberRows_last_flag (p : String) (rows : List Row) :
    ∀ (acc : List (String × GroupReplicationMember) × Bool)
      (lgs : List Event) (out : List (String × GroupReplicationMember)) (sm : Bool)
      (_ : processMemberRows p rows acc = (lgs, Except.ok (out, sm)))
      (front : List Row) (lastRow : Row), rows = front ++ [lastRow] →
      sm = rowSingleMaster (lastRow.getD 4 none) := by
  induction rows with
  | nil =>
    intro acc lgs out sm h front lastRow habs
    exact absurd habs (by simp)
  | cons row rest ih =>
    intro acc lgs out sm h front lastRow heq
    rw [processMemberRows] at h
    rcases hrm : rowToMember p row with ⟨lg, res⟩
    rw [hrm] at h
    cases res with
    | error e => simp at h
    | ok pair =>
      obtain ⟨member, sm1⟩ := pair
      cases front with
      | nil =>
        obtain ⟨h1, h2⟩ : row = lastRow ∧ rest = [] := by simpa using heq
        subst h1
        subst h2
        have hrec : processMemberRows p []
            (mapAssign acc.1 member.member_id member, sm1) =
            ([], Except.ok (mapAssign acc.1 member.member_id member, sm1)) := rfl
        simp only [hrec] at h
        obtain ⟨-, hres2⟩ := Prod.mk.injEq .. ▸ h
        have hsm : sm1 = sm := congrArg Prod.snd (Except.ok.inj hres2)
        rw [← hsm]
        exact (rowToMember_ok hrm).1
      | cons f front2 =>
        obtain ⟨h1, h2⟩ : row = f ∧ rest = front2 ++ [lastRow] := by simpa using heq
        rcases hrec : processMemberRows p rest
            (mapAssign acc.1 member.member_id member, sm1) with ⟨lgs2, res2⟩
        simp only [hrec] at h
        obtain ⟨-, hres2⟩ := Prod.mk.injEq .. ▸ h
        exact ih (mapAssign acc.1 member.member_id member, sm1) lgs2 out sm
          (hres2 ▸ hrec) front2 lastRow h2

/-- Session whose first membership row carries flag 1 and whose second,
last membership row has a null flag column. -/
def sessionC10 : MySQLSession :=
  ⟨[[some "Variable_name", some "prim"]],
   [[some "m1", some "hostA", some "3306", some "ONLINE", some "1"],
    [some "m2", some "hostB", some "3307", some "ONLINE", none]]⟩

/-- Counterexample to the claim that a row with a null single-primary flag
makes every member's role Primary: in sessionC10 the last row's flag column
is null, the fetch succeeds, yet member m1 (decoded from the earlier row,
whose flag was 1 and whose id differs from the primary id) is Secondary. -/
theorem fetch_null_flag_counterexample :
    ((sessionC10.membersResult.getD 1 []).getD 4 none = none) ∧
    (fetch_group_replication_members sessionC10 true).result =
      Except.ok
        ([("m1", ⟨"m1", "hostA", 3306, MemberState.Online, MemberRole.Secondary⟩),
          ("m2", ⟨"m2", "hostB", 3307, MemberState.Online, MemberRole.Primary⟩)],
         false) ∧
    (GroupReplicationMember.mk "m1" "hostA" 3306 MemberState.Online
      MemberRole.Secondary).role ≠ MemberRole.Primary :=
  ⟨rfl, rfl, by decide⟩

/-- C10 amended: a null fifth column, or any string other than 1 or ON,
reads as single_master false without raising an error (the null check covers
only the id, host, port and state columns); the row's own member then gets
role Primary, and the single_master output of a successful fetch is the flag
of the last row processed. -/
theorem flag_column_amended :
    (rowSingleMaster none = false) ∧
    (∀ st : String, st ≠ "1" → st ≠ "ON" → rowSingleMaster (some st) = false) ∧
    (∀ (p : String) (row : Row) (id host port st : String),
      row.length = 5 → row.getD 0 none = some id → row.getD 1 none = some host →
      row.getD 2 none = some port → row.getD 3 none = some st →
      ∃ lg member, rowToMember p row =
        (lg, Except.ok (member, rowSingleMaster (row.getD 4 none))) ∧
        (rowSingleMaster (row.getD 4 none) = false →
          member.role = MemberRole.Primary)) ∧
    (∀ (s : MySQLSession) (sm0 : Bool) (p : String)
      (out : List (String × GroupReplicationMember)) (sm : Bool)
      (front : List Row) (lastRow : Row),
      find_group_replication_primary_member s = Except.ok p →
      (fetch_group_replication_members s sm0).result = Except.ok (out, sm) →
      s.membersResult = front ++ [lastRow] →
      sm = rowSingleMaster (lastRow.getD 4 none)) := by
  refine ⟨rfl, ?_, ?_, ?_⟩
  · intro st h1 h2
    simp [rowSingleMaster, h1, h2]
  · intro p row id host port st hlen h0 h1 h2 h3
    refine ⟨(if stateOfString st = MemberState.Other
        then [Event.logUnknownState st id] else []),
      ⟨id, host, toUInt16 (atoi port), stateOfString st,
        if p = id ∨ rowSingleMaster (row.getD 4 none) = false
        then MemberRole.Primary else MemberRole.Secondary⟩, ?_, ?_⟩
    · unfold rowToMember
      rw [if_neg (show ¬ (row.length ≠ 5) by simp [hlen]), h0, h1, h2, h3]
    · intro hflag
      show (if p = id ∨ rowSingleMaster (row.getD 4 none) = false
        then MemberRole.Primary else MemberRole.Secondary) = MemberRole.Primary
      rw [if_pos (Or.inr hflag)]
  · intro s sm0 p out sm front lastRow hp hf heq
    rw [fetch_result_eq hp] at hf
    rcases hfold : processMemberRows p s.membersResult ([], sm0) with ⟨lgs, res⟩
    rw [hfold] at hf
    have hrun : processMemberRows p s.membersResult ([], sm0) =
        (lgs, Except.ok (out, sm)) := by
      rw [hfold]
      exact congrArg (Prod.mk lgs) hf
    exact processMemberRows_last_flag p s.membersResult ([], sm0) lgs out sm hrun
      front lastRow heq

end GRMeta

namespace Bootstrap

/-- Decimal parse used by the option validators: the whole string must be
digits and nonempty, otherwise the value is not a number. -/
def parseDecNat (s : String) : Option Nat :=
  if s.length ≠ 0 ∧ s.data.all Char.isDigit then some (GRMeta.digitsToNat s.data)
  else none

/-- Normalized endpoint ports of ConfigGenerator::Options. -/
structure Options where
  multi_master : Bool
  rw_port : Nat
  ro_port : Nat
  rw_x_port : Nat
  ro_x_port : Nat
deriving DecidableEq, Repr

/-- Error raised for an unusable base-port value; the tests only pin the
text Invalid base-port number, which this message carries verbatim. -/
def invalidBasePortMsg (value : String) : String :=
  "Invalid base-port number " ++ value

/-- Modelled from the spec: ConfigGenerator::fill_options is not in this
snapshot (only test_config_generator.cc is).  Per the spec, endpoint ports
are derived from base-port by the fixed offsets +0,+1,+2,+3 and must not
exceed 65535 after offsetting; an absent base-port keeps the default ports
6446/6447/64460/64470, and a non-numeric or out-of-range value is rejected
with an Invalid base-port number error. -/
def fill_options (multi_master : Bool) (user_options : List (String × String)) :
    Except String Options :=
  match user_options.lookup "base-port" with
  | none => Except.ok ⟨multi_master, 6446, 6447, 64460, 64470⟩
  | some value =>
    match parseDecNat value with
    | some v =>
      if 1 ≤ v ∧ v + 3 ≤ 65535 then
        Except.ok ⟨multi_master, v, v + 1, v + 2, v + 3⟩
      else Except.error (invalidBasePortMsg value)
    | none => Except.error (invalidBasePortMsg value)

/-- C5 (spec-modelled): with a numeric base-port value v the four endpoint
ports come out v, v+1, v+2, v+3, and any v whose derived ports would pass
65535 (or a zero v) is rejected with the Invalid base-port number error,
whose text starts with exactly those words. -/
theorem fill_options_base_port (mm : Bool) (uo : List (String × String))
    (value : String) (v : Nat)
    (hbp : uo.lookup "base-port" = some value)
    (hv : parseDecNat value = some v) :
    (1 ≤ v ∧ v + 3 ≤ 65535 →
      fill_options mm uo = Except.ok ⟨mm, v, v + 1, v + 2, v + 3⟩) ∧
    (65535 < v + 3 →
      fill_options mm uo = Except.error (invalidBasePortMsg value) ∧
      "Invalid base-port number".data <+: (invalidBasePortMsg value).data) := by
  constructor
  · intro hrange
    unfold fill_options
    rw [hbp]
    simp only [hv]
    rw [if_pos hrange]
  · intro hover
    refine ⟨?_, ?_⟩
    · unfold fill_options
      rw [hbp]
      simp only [hv]
      rw [if_neg (by omega)]
    · refine ⟨' ' :: value.data, ?_⟩
      show "Invalid base-port number".data ++ (' ' :: value.data) =
        ("Invalid base-port number " ++ value).data
      have h1 : ("Invalid base-port number " ++ value).data =
          "Invalid base-port number ".data ++ value.data := rfl
      have h2 : "Invalid base-port number".data ++ [' '] =
          "Invalid base-port number ".data := by decide
      rw [h1, ← h2, List.append_assoc]
      rfl

/-- Witness: base-port 65533 is rejected with the Invalid base-port number
error while base-port 65532 succeeds with ports 65532, 65533, 65534,
65535. -/
theorem fill_options_base_port_witness :
    fill_options false [("base-port", "65533")] =
      Except.error (invalidBasePortMsg "65533") ∧
    fill_options false [("base-port", "65532")] =
      Except.ok ⟨false, 65532, 65533, 65534, 65535⟩ :=
  ⟨((fill_options_base_port false [("base-port", "65533")] "65533" 65533
      rfl (by decide)).2 (by decide)).1,
   (fill_options_base_port false [("base-port", "65532")] "65532" 65532
      rfl (by decide)).1 (by decide)⟩

/-- Exact message the tests pin for a bad password-retries value. -/
def invalidRetriesMsg (value : String) : String :=
  "Invalid password-retries value '" ++ value ++ "'; please pick a value from 1 to 10000"

/-- Modelled from the spec: ConfigGenerator's password-retries validation is
not in this snapshot (only test_config_generator.cc is).  Per the spec the
retry limit must be an integer in 1..10000, and a non-numeric or
out-of-range value is a configuration error raised before any network call,
with the message naming the offending value. -/
def parse_password_retries (value : String) : Except String Nat :=
  match parseDecNat value with
  | some n =>
    if 1 ≤ n ∧ n ≤ 10000 then Except.ok n
    else Except.error (invalidRetriesMsg value)
  | none => Except.error (invalidRetriesMsg value)

/-- C6 (spec-modelled): every password-retries value that is not a decimal
integer in 1..10000 is rejected with the runtime error Invalid
password-retries value quoting the offending value. -/
theorem password_retries_validation (value : String)
    (hbad : parseDecNat value = none ∨
      ∃ n, parseDecNat value = some n ∧ (n < 1 ∨ 10000 < n)) :
    parse_password_retries value = Except.error (invalidRetriesMsg value) := by
  rcases hbad with hnone | ⟨n, hn, hrange⟩
  · unfold parse_password_retries
    rw [hnone]
  · unfold parse_password_retries
    rw [hn]
    simp only
    rw [if_neg (by omega)]

/-- Witness: the four values the tests exercise are all rejected with the
message naming them. -/
theorem password_retries_validation_witness :
    parse_password_retries "0" = Except.error (invalidRetriesMsg "0") ∧
    parse_password_retries "999999" = Except.error (invalidRetriesMsg "999999") ∧
    parse_password_retries "foo" = Except.error (invalidRetriesMsg "foo") ∧
    parse_password_retries "" = Except.error (invalidRetriesMsg "") :=
  ⟨password_retries_validation "0" (Or.inr ⟨0, by decide, by decide⟩),
   password_retries_validation "999999" (Or.inr ⟨999999, by decide, by decide⟩),
   password_retries_validation "foo" (Or.inl (by decide)),
   password_retries_validation "" (Or.inl (by decide))⟩

/-- On-disk state of a deployment directory relevant to re-bootstrap: the
identity (router name, cluster name) recorded by the existing configuration
file, and the content of the .bak copy when one exists. -/
structure DeployState where
  config : Option (String × String)
  backup : Option (String × String)
deriving DecidableEq, Repr

/-- Result of one bootstrap run against a deployment directory: on failure
the directory state is carried unchanged alongside the error message. -/
inductive BootstrapOutcome where
  | ok (st : DeployState)
  | fail (msg : String) (st : DeployState)
deriving DecidableEq, Repr

/-- Modelled from the spec: the re-bootstrap decision of
bootstrap_directory_deployment is not in this snapshot (only
test_config_generator.cc is).  A previous deployment with a different
cluster identity and no force flag is a conflict instructing the caller to
pass the force option and leaves the directory untouched; any other
re-bootstrap that changes the recorded configuration copies it to a .bak
file first; an identical refresh writes no backup.  The tests pin that a
mere router-name change is a rename, not a conflict. -/
def bootstrap_deploy (st : DeployState) (name cluster : String) (force : Bool) :
    BootstrapOutcome :=
  match st.config with
  | none => BootstrapOutcome.ok ⟨some (name, cluster), st.backup⟩
  | some (oldName, oldCluster) =>
    if oldCluster ≠ cluster ∧ force = false then
      BootstrapOutcome.fail
        "If you'd like to replace it, please use the --force option" st
    else if (oldName, oldCluster) ≠ (name, cluster) then
      BootstrapOutcome.ok ⟨some (name, cluster), some (oldName, oldCluster)⟩
    else
      BootstrapOutcome.ok ⟨some (name, cluster), st.backup⟩

/-- C7 (spec-modelled): re-bootstrapping a directory recorded under a
different cluster name fails without force, with the message instructing use
of the --force option and the directory state (configuration and absence of
a .bak copy) unchanged; with force it succeeds and the prior configuration
is copied to the .bak file. -/
theorem bootstrap_overwrite_conflict (st : DeployState)
    (name cluster oldName oldCluster : String)
    (hcfg : st.config = some (oldName, oldCluster)) (hdiff : oldCluster ≠ cluster) :
    bootstrap_deploy st name cluster false =
      BootstrapOutcome.fail
        "If you'd like to replace it, please use the --force option" st ∧
    bootstrap_deploy st name cluster true =
      BootstrapOutcome.ok ⟨some (name, cluster), some (oldName, oldCluster)⟩ := by
  constructor
  · unfold bootstrap_deploy
    rw [hcfg]
    simp only
    rw [if_pos ⟨hdiff, trivial⟩]
  · unfold bootstrap_deploy
    rw [hcfg]
    simp only
    rw [if_neg (by simp), if_pos (by simp [hdiff])]

/-- Witness: the overwrite decision at the concrete identities of the
bootstrap_overwrite test (cluster versus kluster). -/
theorem bootstrap_overwrite_conflict_witness :
    bootstrap_deploy ⟨some ("myname", "cluster"), none⟩ "myname" "kluster" false =
      BootstrapOutcome.fail
        "If you'd like to replace it, please use the --force option"
        ⟨some ("myname", "cluster"), none⟩ ∧
    bootstrap_deploy ⟨some ("myname", "cluster"), none⟩ "myname" "kluster" true =
      BootstrapOutcome.ok ⟨some ("myname", "kluster"), some ("myname", "cluster")⟩ :=
  bootstrap_overwrite_conflict ⟨some ("myname", "cluster"), none⟩
    "myname" "kluster" "myname" "cluster" rfl (by decide)

/-- Outcome of one SQL statement at the server: success or an error with the
server's numeric code. -/
inductive SqlResult where
  | ok
  | err (code : Nat)
deriving DecidableEq, Repr

/-- Server behaviour during account provisioning: the response to the hashed
CREATE USER statement, and the response to the i-th plain CREATE USER
attempt (each attempt carries a freshly generated password). -/
structure CreateUserServer where
  hashedCreate : SqlResult
  plainCreate : Nat → SqlResult

/-- Statements the provisioner issues while creating the account. -/
inductive ProvisionStmt where
  | createUserHashed
  | createUserPlain
  | rollback
deriving DecidableEq, Repr

/-- Modelled from the spec: the plain CREATE USER retry loop of the account
provisioner is not in this snapshot (only test_config_generator.cc is).
Each attempt that fails with code 1819 (password policy) is followed by a
ROLLBACK and a retry with a new password, up to the configured number of
attempts; exhausting them aborts with the password-policy error the test
pins; any other error code is terminal. -/
def plainCreateLoop (server : CreateUserServer) (attempt : Nat) :
    Nat → List ProvisionStmt × Except String Unit
  | 0 =>
    ([], Except.error "Try to decrease the validate_password rules and try the operation again.")
  | fuel + 1 =>
    match server.plainCreate attempt with
    | SqlResult.ok => ([ProvisionStmt.createUserPlain], Except.ok ())
    | SqlResult.err code =>
      if code = 1819 then
        let next := plainCreateLoop server (attempt + 1) fuel
        (ProvisionStmt.createUserPlain :: ProvisionStmt.rollback :: next.1, next.2)
      else
        ([ProvisionStmt.createUserPlain],
         Except.error ("Error creating MySQL account for router: error code " ++ toString code))

/-- Modelled from the spec: the account-creation attempt order of the
provisioner is not in this snapshot.  When password hashing is requested the
first statement is CREATE USER IDENTIFIED WITH the native-password plugin;
error 1524 (plugin not loaded) triggers a ROLLBACK and a fall-through to the
plain CREATE USER loop, while any other error is terminal. -/
def create_router_account (server : CreateUserServer) (useHashedPassword : Bool)
    (retries : Nat) : List ProvisionStmt × Except String Unit :=
  if useHashedPassword then
    match server.hashedCreate with
    | SqlResult.ok => ([ProvisionStmt.createUserHashed], Except.ok ())
    | SqlResult.err code =>
      if code = 1524 then
        let next := plainCreateLoop server 0 retries
        (ProvisionStmt.createUserHashed :: ProvisionStmt.rollback :: next.1, next.2)
      else
        ([ProvisionStmt.createUserHashed],
         Except.error ("Error creating MySQL account for router: error code " ++ toString code))
  else
    plainCreateLoop server 0 retries

/-- C8 (spec-modelled): a server that rejects the hashed CREATE USER with
code 1524 makes the provisioner issue a ROLLBACK and continue into the plain
CREATE USER loop instead of aborting, and when the first plain attempt
succeeds the whole account creation still succeeds, with the statement trace
hashed CREATE USER, ROLLBACK, plain CREATE USER. -/
theorem plugin_not_loaded_retries (server : CreateUserServer) (retries : Nat)
    (hhash : server.hashedCreate = SqlResult.err 1524) :
    create_router_account server true retries =
      (ProvisionStmt.createUserHashed :: ProvisionStmt.rollback ::
        (plainCreateLoop server 0 retries).1,
       (plainCreateLoop server 0 retries).2) ∧
    (server.plainCreate 0 = SqlResult.ok → 0 < retries →
      create_router_account server true retries =
        ([ProvisionStmt.createUserHashed, ProvisionStmt.rollback,
          ProvisionStmt.createUserPlain], Except.ok ())) := by
  have hmain : create_router_account server true retries =
      (ProvisionStmt.createUserHashed :: ProvisionStmt.rollback ::
        (plainCreateLoop server 0 retries).1,
       (plainCreateLoop server 0 retries).2) := by
    unfold create_router_account
    rw [if_pos rfl, hhash]
    simp only
    rw [if_pos trivial]
  refine ⟨hmain, ?_⟩
  intro hplain hretries
  rw [hmain]
  obtain ⟨fuel, hfuel⟩ : ∃ fuel, retries = fuel + 1 :=
    ⟨retries - 1, by omega⟩
  rw [hfuel]
  rw [plainCreateLoop, hplain]

/-- Server of the bootstrap_generate_password_no_native_plugin test: hashed
CREATE USER fails with 1524, plain CREATE USER succeeds at once. -/
def serverNoNativePlugin : CreateUserServer :=
  ⟨SqlResult.err 1524, fun _ => SqlResult.ok⟩

/-- Witness: on serverNoNativePlugin the provisioner rolls back after error
1524 and completes successfully with a plain CREATE USER. -/
theorem plugin_not_loaded_retries_witness :
    create_router_account serverNoNativePlugin true 5 =
      ([ProvisionStmt.createUserHashed, ProvisionStmt.rollback,
        ProvisionStmt.createUserPlain], Except.ok ()) :=
  (plugin_not_loaded_retries serverNoNativePlugin 5 rfl).2 rfl (by decide)

/-- Filesystem footprint of one directory deployment: whether the deployment
directory exists and whether the secret-store (keyring) file exists. -/
structure FsState where
  dirExists : Bool
  keyringExists : Bool
deriving DecidableEq, Repr

/-- Filesystem operations the bootstrap run and its failure cleanup use. -/
inductive FsOp where
  | mkdirIfAbsent
  | writeKeyringFile
  | deleteKeyringFile
  | deleteDirRecursive
deriving DecidableEq, Repr

/-- Effect of one filesystem operation; deleting the directory recursively
also removes the keyring file inside it. -/
def applyOp (fs : FsState) : FsOp → FsState
  | FsOp.mkdirIfAbsent => ⟨true, fs.keyringExists⟩
  | FsOp.writeKeyringFile => ⟨fs.dirExists, true⟩
  | FsOp.deleteKeyringFile => ⟨fs.dirExists, false⟩
  | FsOp.deleteDirRecursive => ⟨false, false⟩

/-- Steps of a bootstrap run at which the tested failures occur. -/
inductive BootstrapStage where
  | topologyValidation
  | accountProvisioning
deriving DecidableEq, Repr

/-- Modelled from the spec: the failure cleanup of
bootstrap_directory_deployment is not in this snapshot (only
test_config_generator.cc is).  The run establishes the directory and writes
the keyring, then validates the topology and provisions the account; on a
failure in those steps it deletes the partially written keyring file and the
directory, but only when the directory did not exist before the run;
a pre-existing directory and its contents are never deleted. -/
def bootstrap_directory_deployment (fs0 : FsState)
    (failAt : Option BootstrapStage) : FsState × Bool :=
  let fs1 := applyOp fs0 FsOp.mkdirIfAbsent
  let fs2 := applyOp fs1 FsOp.writeKeyringFile
  match failAt with
  | none => (fs2, true)
  | some _ =>
    if fs0.dirExists then (fs2, false)
    else (applyOp (applyOp fs2 FsOp.deleteKeyringFile) FsOp.deleteDirRecursive, false)

/-- C9 (spec-modelled): a failure during topology validation or account
provisioning deletes the freshly created directory and the partially written
keyring file when the directory did not exist before the run, leaving no
residue; when the directory pre-existed, the failure leaves the directory
and the keyring file in place. -/
theorem cleanup_on_failure (fs0 : FsState) (stage : BootstrapStage) :
    (fs0.dirExists = false →
      bootstrap_directory_deployment fs0 (some stage) = (⟨false, false⟩, false)) ∧
    (fs0.dirExists = true →
      bootstrap_directory_deployment fs0 (some stage) = (⟨true, true⟩, false)) := by
  constructor
  · intro hfresh
    unfold bootstrap_directory_deployment
    simp only
    rw [if_neg (by simp [hfresh])]
    rfl
  · intro hpre
    unfold bootstrap_directory_deployment
    simp only
    rw [if_pos hpre]
    rfl

/-- Witness: the two directory histories of the bootstrap_cleanup_on_failure
test, failing during account provisioning. -/
theorem cleanup_on_failure_witness :
    bootstrap_directory_deployment ⟨false, false⟩
      (some BootstrapStage.accountProvisioning) = (⟨false, false⟩, false) ∧
    bootstrap_directory_deployment ⟨true, true⟩
      (some BootstrapStage.accountProvisioning) = (⟨true, true⟩, false) :=
  ⟨(cleanup_on_failure ⟨false, false⟩ BootstrapStage.accountProvisioning).1 rfl,
   (cleanup_on_failure ⟨true, true⟩ BootstrapStage.accountProvisioning).2 rfl⟩

end Bootstrap
